import Mathlib

/-!
Verification of the LPMP device-service decoding pipeline
(`internal/frameparser` and `internal/config`) against its
natural-language specification.

Bytes are modelled as `Nat` (values below 256 on the wire); Go slices
become `List Nat`; Go machine arithmetic on `uint8`/`uint16` is modelled
with explicit `% 256` / `% 65536` where overflow can occur.  Go's dynamic
`any` return values of the decode functions are modelled by the closed
sum `GoValue`; a `float32` is carried as its IEEE-754 bit pattern (the
value produced by `math.Float32frombits`).  Fallible Go functions
returning `(T, error)` become `Except String T`.  A Go runtime panic
(index out of range) is modelled explicitly as a distinguished outcome.
-/

namespace LpMp

abbrev Bytes := List Nat

/-- `binary.BigEndian.Uint16` of two bytes. -/
def beUint16 (b0 b1 : Nat) : Nat := b0 * 256 + b1

/-- `binary.LittleEndian.Uint16` of two bytes. -/
def leUint16 (b0 b1 : Nat) : Nat := b0 + b1 * 256

/-- `binary.LittleEndian.Uint32` of four bytes. -/
def leUint32 (b0 b1 b2 b3 : Nat) : Nat :=
  b0 + b1 * 256 + b2 * 65536 + b3 * 16777216

/-- Bit pattern of the IEEE-754 single-precision float equal to the
natural number `n` (exact for `n < 2 ^ 24`, which covers every `uint16`);
models Go's `float32(u)` conversion applied to an unsigned integer. -/
def float32bitsOfNat (n : Nat) : Nat :=
  if n = 0 then 0
  else
    (Nat.log2 n + 127) * 2 ^ 23 + (n * 2 ^ (23 - Nat.log2 n) - 2 ^ 23)

/-- Closed model of the dynamically typed (`any`) values produced by the
decode functions in `internal/config/param_table_parser.go`.  A `float32`
is represented by its 32-bit IEEE-754 pattern. -/
inductive GoValue where
  | f32 (bits : Nat)
  | u32 (v : Nat)
  | u16 (v : Nat)
  | u8 (v : Nat)
  deriving DecidableEq, Repr

/-- `config.ParamInfo` (param_table_parser.go). -/
structure ParamInfo where
  Name : String
  Unit : String
  ByteLen : Nat
  DataType : String
  Parse : Bytes → Except String GoValue

/-- `config.parseFloat32`: exactly 4 bytes, little-endian bit pattern. -/
def parseFloat32 (data : Bytes) : Except String GoValue :=
  if data.length ≠ 4 then .error "期望4字节"
  else .ok (.f32 (leUint32 (data.getD 0 0) (data.getD 1 0) (data.getD 2 0) (data.getD 3 0)))

/-- `config.parseUint32`: exactly 4 bytes, little-endian. -/
def parseUint32 (data : Bytes) : Except String GoValue :=
  if data.length ≠ 4 then .error "期望4字节"
  else .ok (.u32 (leUint32 (data.getD 0 0) (data.getD 1 0) (data.getD 2 0) (data.getD 3 0)))

/-- `config.parseUint8`: exactly 1 byte. -/
def parseUint8 (data : Bytes) : Except String GoValue :=
  if data.length ≠ 1 then .error "期望1字节"
  else .ok (.u8 (data.getD 0 0))

/-- `config.parseUint16`: exactly 2 bytes, little-endian. -/
def parseUint16 (data : Bytes) : Except String GoValue :=
  if data.length ≠ 2 then .error "期望2字节"
  else .ok (.u16 (leUint16 (data.getD 0 0) (data.getD 1 0)))

/-- `config.parseAndStoreTemperature`: delegates to `parseFloat32` and
returns the float unchanged. -/
def parseAndStoreTemperature (data : Bytes) : Except String GoValue :=
  match parseFloat32 data with
  | .error e => .error e
  | .ok v => .ok v

/-- `config.parseAndStoreHumidity`: exactly 2 bytes; converts the
little-endian `uint16` to a `float32`. -/
def parseAndStoreHumidity (data : Bytes) : Except String GoValue :=
  if data.length ≠ 2 then .error "期望2字节"
  else .ok (.f32 (float32bitsOfNat (leUint16 (data.getD 0 0) (data.getD 1 0))))

/-- `config.parseAndStoreVoltage`: rejects fewer than 4 bytes, reads the
first 4 bytes (`data[:4]`) as a little-endian float pattern. -/
def parseAndStoreVoltage (data : Bytes) : Except String GoValue :=
  if data.length < 4 then .error "数据长度不足，期望 4 字节"
  else .ok (.f32 (leUint32 (data.getD 0 0) (data.getD 1 0) (data.getD 2 0) (data.getD 3 0)))

/-- `config.parseAndStoreBatteryLevel`: rejects fewer than 2 bytes,
reads the first 2 bytes (`data[:2]`) as a little-endian `uint16`. -/
def parseAndStoreBatteryLevel (data : Bytes) : Except String GoValue :=
  if data.length < 2 then .error "数据长度不足，期望 2 字节"
  else .ok (.u16 (leUint16 (data.getD 0 0) (data.getD 1 0)))

/-- `config.parseAndStoreDeviceStatus`: rejects fewer than 1 byte,
returns the first byte (status-code description is only logged). -/
def parseAndStoreDeviceStatus (data : Bytes) : Except String GoValue :=
  if data.length < 1 then .error "数据长度不足，期望 1 字节"
  else .ok (.u8 (data.getD 0 0))

/-- `config.parseAndStoreLevelHeight`: rejects fewer than 4 bytes, reads
the first 4 bytes (`data[:4]`) as a little-endian float pattern. -/
def parseAndStoreLevelHeight (data : Bytes) : Except String GoValue :=
  if data.length < 4 then .error "数据长度不足，期望 4 字节"
  else .ok (.f32 (leUint32 (data.getD 0 0) (data.getD 1 0) (data.getD 2 0) (data.getD 3 0)))

/-- The entries of `config.paramMap`, keyed by
`ParamKey = (FeatureBits, CodeBits)` (param_table_parser.go lines 23-36). -/
def paramTable : List ((Nat × Nat) × ParamInfo) :=
  [((0b000, 0b00000000001), ⟨"长度", "m", 4, "float32", parseFloat32⟩),
   ((0b000, 0b00000000010), ⟨"电池剩余电量", "%", 2, "uint16", parseAndStoreBatteryLevel⟩),
   ((0b000, 0b00000000011), ⟨"voltage", "v", 4, "uint32", parseAndStoreVoltage⟩),
   ((0b000, 0b00000000100), ⟨"state", "0:其它,1:正常,2:异常", 1, "uint8", parseAndStoreDeviceStatus⟩),
   ((0b000, 0b00000000101), ⟨"温度", "℃", 4, "float32", parseFloat32⟩),
   ((0b000, 0b00000000110), ⟨"物质的量", "mol", 4, "float32", parseFloat32⟩),
   ((0b000, 0b00000000111), ⟨"发光强度", "cd", 4, "float32", parseFloat32⟩),
   ((0b000, 0b00000001000), ⟨"temperature", "℃", 4, "float32", parseAndStoreTemperature⟩),
   ((0b000, 0b00000001001), ⟨"humidity", "%RH", 2, "float32", parseAndStoreHumidity⟩),
   ((0b000, 0b00000111000), ⟨"心跳状态", "\\", 1, "uint8", parseUint8⟩),
   ((0b000, 0b00000111001), ⟨"battery-level", "%", 1, "uint8", parseUint8⟩),
   ((0b000, 0b00010100011), ⟨"water-level", "m", 4, "float32", parseAndStoreLevelHeight⟩)]

/-- `config.paramMap`: the parameter registry as a finite map. -/
def paramMap (key : Nat × Nat) : Option ParamInfo :=
  paramTable.lookup key

/-- `config.LookupParamInfo`: splits its argument as feature bits
`(paramType >> 11) & 0x07` and code bits `paramType & 0x7FF`, then looks
up the registry. -/
def LookupParamInfo (paramType : Nat) : Option ParamInfo :=
  paramMap ((paramType >>> 11) &&& 0x07, paramType &&& 0x7FF)

/-- The registered parse function for a type-code argument, applied to a
byte slice (registry lookup composed with the descriptor's `Parse`). -/
def lookupParse (paramType : Nat) (data : Bytes) : Option (Except String GoValue) :=
  (LookupParamInfo paramType).map (fun i => i.Parse data)

/-- Uppercase hexadecimal digit. -/
def hexDigit (n : Nat) : Char :=
  if n < 10 then Char.ofNat (48 + n) else Char.ofNat (55 + n)

/-- One byte as two uppercase hex characters; `strings.ToUpper` composed
with `hex.EncodeToString` byte-wise. -/
def hexByteStr (b : Nat) : String :=
  String.mk [hexDigit (b / 16 % 16), hexDigit (b % 16)]

/-- `strings.ToUpper(hex.EncodeToString(bytes))`. -/
def sensorIDHex (bytes : Bytes) : String :=
  String.join (bytes.map hexByteStr)

/-- `config.sensorIDToDeviceName` (idToDevice.go). -/
def sensorIDToDeviceName : List (String × String) :=
  [("238A08262319", "WaterLevelSensor01")]

/-- `config.LookupDeviceName`. -/
def LookupDeviceName (sensorID : String) : Option String :=
  sensorIDToDeviceName.lookup sensorID

/-- Outcome of the parameter walk in `frameparser.StartParser`
(parser.go lines 62-116).  `boundsHeader` and `boundsData` are the two
`break` sites ("参数头越界" / "参数数据越界"); `panicked` models a Go
runtime index-out-of-range panic while reading explicit length bytes. -/
inductive ParseStatus where
  | completed
  | boundsHeader
  | boundsData
  | panicked
  deriving DecidableEq, Repr

/-- Length resolution for a 2-bit `lenFlag` (parser.go lines 76-89):
flag 0 means a fixed 4 bytes, flags 1/2/3 consume that many explicit
length bytes at `idx`.  Returns the declared data length together with
the index just past the consumed length bytes; `none` when Go would
panic because an explicit length byte lies outside the frame. -/
def resolveLen (frame : Bytes) (idx : Nat) (lenFlag : Nat) : Option (Nat × Nat) :=
  match lenFlag with
  | 0 => some (4, idx)
  | 1 =>
    match frame[idx]? with
    | some b => some (b, idx + 1)
    | none => none
  | 2 =>
    match frame[idx]?, frame[idx + 1]? with
    | some b0, some b1 => some (beUint16 b0 b1, idx + 2)
    | _, _ => none
  | _ =>
    match frame[idx]?, frame[idx + 1]?, frame[idx + 2]? with
    | some b0, some b1, some b2 => some (b0 * 65536 + b1 * 256 + b2, idx + 3)
    | _, _, _ => none

/-- The parameter loop of `frameparser.StartParser` (parser.go lines
63-116).  The first argument counts the remaining iterations
(`dataCount - parsed`); `acc` carries the `(deviceName, resourceName,
value)` tuples written so far via `config.SetDeviceValue`.  Each
iteration reads a 2-byte big-endian parameter header, resolves the
declared length, bounds-checks it against the region before the
trailing 2 CRC bytes, and dispatches through `config.LookupParamInfo`
applied (as in the source) to the full 16-bit header word. -/
def walkParams (frame : Bytes) (deviceName : String) :
    Nat → Nat → List (String × String × GoValue) →
    List (String × String × GoValue) × ParseStatus
  | 0, _, acc => (acc, .completed)
  | n + 1, idx, acc =>
    if idx + 2 > frame.length - 2 then (acc, .boundsHeader)
    else
      match frame[idx]?, frame[idx + 1]? with
      | some b0, some b1 =>
        let head16 := beUint16 b0 b1
        match resolveLen frame (idx + 2) (head16 % 4) with
        | none => (acc, .panicked)
        | some (dataLen, idx2) =>
          if idx2 + dataLen > frame.length - 2 then (acc, .boundsData)
          else
            let valBytes := (frame.drop idx2).take dataLen
            match LookupParamInfo head16 with
            | some info =>
              match info.Parse valBytes with
              | .ok val =>
                walkParams frame deviceName n (idx2 + dataLen)
                  (acc ++ [(deviceName, info.Name, val)])
              | .error _ => walkParams frame deviceName n (idx2 + dataLen) acc
            | none => walkParams frame deviceName n (idx2 + dataLen) acc
      | _, _ => (acc, .panicked)

/-- Per-frame result of the `StartParser` loop body. -/
inductive FrameResult where
  | lengthError
  | checksumError
  | unknownSensor
  | ignoredType
  | fragmentSkipped
  | decoded (out : List (String × String × GoValue)) (status : ParseStatus)
  deriving DecidableEq, Repr

/-- The body of `frameparser.StartParser`'s loop for a single frame
(parser.go lines 23-121), parameterised by the shared `CRC16` function
(defined outside the decoding core; both encode and decode paths call
the same function).  Checks the 9-byte minimum length, verifies the
trailing big-endian CRC, resolves the sensor, filters on packet type
(monitoring = 0 / alarm = 2) and fragmentation, then runs the
parameter walk from byte 7. -/
def parseBusinessFrame (crc : Bytes → Nat) (frame : Bytes) : FrameResult :=
  if frame.length < 9 then .lengthError
  else
    let payload := frame.take (frame.length - 2)
    let recvCRC := beUint16 (frame.getD (frame.length - 2) 0) (frame.getD (frame.length - 1) 0)
    if crc payload ≠ recvCRC then .checksumError
    else
      let sensorID := sensorIDHex (frame.take 6)
      match LookupDeviceName sensorID with
      | none => .unknownSensor
      | some deviceName =>
        let head := frame.getD 6 0
        let dataCount := head / 16
        let fragInd := head / 8 % 2
        let packetType := head % 8
        if packetType ≠ 0 ∧ packetType ≠ 2 then .ignoredType
        else if fragInd = 1 then .fragmentSkipped
        else .decoded (walkParams frame deviceName dataCount 7 []).1
          (walkParams frame deviceName dataCount 7 []).2

/-- A trivially admissible instance of the pluggable 16-bit checksum
(used to build concrete validated frames in the theorems below; the
source's `CRC16` body is outside the decoding core). -/
def crcZero : Bytes → Nat := fun _ => 0

/-! ## Fragment reassembler (internal/frameparser/sharding.go)

Go pointer identity of an `*SDUCache` (used by the timeout callback's
`currentCache == cache` comparison) is modelled by a `cacheId` drawn
from a fresh-allocation counter; the single-shot `time.Timer` armed for
a cache is modelled by membership of that identity in the set of armed
timers.  The global `sduCacheMap` keyed by the 6-byte sensor identifier
becomes an explicit finite map; `FrameCh` becomes the list of frames
emitted so far, oldest first. -/

/-- 6-byte sensor identifier (`[6]byte`). -/
abbrev SensorId := List Nat

/-- `frameparser.Frame` (sharding.go lines 11-19). -/
structure GoFrame where
  SensorID : SensorId
  FragInd : Nat
  SSEQ : Nat
  PSEQ : Nat
  Flag : Nat
  Data : Bytes
  deriving DecidableEq, Repr

/-- `frameparser.SDUCache` (sharding.go lines 22-29); `cacheId` models
the Go pointer identity of the cache object and of the timer armed for
it. -/
structure SDUCache where
  SSEQ : Nat
  expectedSeq : Nat
  finalSeq : Nat
  dataBuffer : Bytes
  outOfOrder : List (Nat × Bytes)
  cacheId : Nat
  deriving DecidableEq, Repr

/-- The shared mutable state of the reassembler: the per-sensor cache
table `sduCacheMap`, the set of armed timer identities, the
fresh-allocation counter, and the frames pushed to `FrameCh`. -/
structure ReasmState where
  sduCacheMap : SensorId → Option SDUCache
  timers : List Nat
  nextCacheId : Nat
  frameCh : List GoFrame

/-- Initial reassembler state: empty cache table, no timers, nothing
emitted. -/
def initState : ReasmState :=
  { sduCacheMap := fun _ => none, timers := [], nextCacheId := 1, frameCh := [] }

/-- Pointwise update of the cache table (`sduCacheMap[k] = v` /
`delete(sduCacheMap, k)`). -/
def mapUpdate (m : SensorId → Option SDUCache) (k : SensorId) (v : Option SDUCache) :
    SensorId → Option SDUCache :=
  fun k2 => if k2 = k then v else m k2

/-- Go map assignment `outOfOrder[k] = v` on the association list. -/
def ooInsert (m : List (Nat × Bytes)) (k : Nat) (v : Bytes) : List (Nat × Bytes) :=
  (k, v) :: m.filter (fun p => p.1 ≠ k)

/-- Go `delete(outOfOrder, k)` on the association list. -/
def ooDelete (m : List (Nat × Bytes)) (k : Nat) : List (Nat × Bytes) :=
  m.filter (fun p => p.1 ≠ k)

/-- `frameparser.isFlagFirst`: low 2 bits equal `00`. -/
def isFlagFirst (flag : Nat) : Bool := flag % 4 == 0

/-- `frameparser.isFlagLast`: low 2 bits equal `11`. -/
def isFlagLast (flag : Nat) : Bool := flag % 4 == 3

/-- `frameparser.appendFragmentData`: plain concatenation onto the
cache's accumulated buffer. -/
def appendFragmentData (buffer : Bytes) (data : Bytes) : Bytes := buffer ++ data

/-- `frameparser.cancelReassembleTimer`: stop the timer owned by the
cache (drop its identity from the armed set). -/
def cancelReassembleTimer (cache : SDUCache) (st : ReasmState) : ReasmState :=
  { st with timers := st.timers.filter (fun t => t ≠ cache.cacheId) }

/-- `frameparser.finalizeAndOutput` (sharding.go lines 239-255): cancel
the timer, remove the cache, and emit the accumulated buffer as an
unfragmented frame tagged with the sensor identifier. -/
def finalizeAndOutput (sensorID : SensorId) (cache : SDUCache) (st : ReasmState) : ReasmState :=
  let st1 := cancelReassembleTimer cache st
  let st2 := { st1 with sduCacheMap := mapUpdate st1.sduCacheMap sensorID none }
  { st2 with frameCh := st2.frameCh ++
      [{ SensorID := sensorID, FragInd := 0, SSEQ := cache.SSEQ, PSEQ := 0, Flag := 0,
         Data := cache.dataBuffer }] }

/-- The three identical first-fragment blocks of `ProcessFrame`
(sharding.go lines 67-86, 104-121 and 132-149): build a fresh cache
from the fragment, append its payload, set `expectedSeq` to the
fragment sequence plus one (`uint8` arithmetic), arm the timeout, store
the cache, and finalize at once when the fragment is also a last
fragment. -/
def startFreshCache (sensorID : SensorId) (frame : GoFrame) (st : ReasmState) : ReasmState :=
  let cache : SDUCache :=
    { SSEQ := frame.SSEQ, expectedSeq := (frame.PSEQ + 1) % 256, finalSeq := 0,
      dataBuffer := appendFragmentData [] frame.Data, outOfOrder := [],
      cacheId := st.nextCacheId }
  let st1 : ReasmState :=
    { st with nextCacheId := st.nextCacheId + 1,
              timers := cache.cacheId :: st.timers,
              sduCacheMap := mapUpdate st.sduCacheMap sensorID (some cache) }
  if isFlagLast frame.Flag then finalizeAndOutput sensorID cache st1 else st1

/-- The drain loop of `ProcessFrame` (sharding.go lines 176-185):
repeatedly take `outOfOrder[expectedSeq]`, append it and advance
`expectedSeq`, until the next expected fragment is absent.  The fuel is
the size of `outOfOrder`, which bounds the number of successful
lookups. -/
def drainLoop : Nat → SDUCache → SDUCache
  | 0, c => c
  | fuel + 1, c =>
    match c.outOfOrder.lookup c.expectedSeq with
    | none => c
    | some data =>
      drainLoop fuel
        { c with dataBuffer := appendFragmentData c.dataBuffer data,
                 outOfOrder := ooDelete c.outOfOrder c.expectedSeq,
                 expectedSeq := (c.expectedSeq + 1) % 256 }

/-- `frameparser.ProcessFrame` (sharding.go lines 48-195) as a state
transition.  Unfragmented frames are forwarded unchanged; fragments are
cached, restarted on a new first fragment, buffered when ahead of
`expectedSeq`, dropped when stale or orphaned, and finalized once the
last fragment's sequence number has been contiguously reached. -/
def ProcessFrame (frame : GoFrame) (st : ReasmState) : ReasmState :=
  if frame.FragInd ≠ 1 then { st with frameCh := st.frameCh ++ [frame] }
  else
    let sensorID := frame.SensorID
    match st.sduCacheMap sensorID with
    | none =>
      if isFlagFirst frame.Flag then startFreshCache sensorID frame st
      else st
    | some sduCache =>
      if frame.SSEQ ≠ sduCache.SSEQ then
        if isFlagFirst frame.Flag then
          let st1 := cancelReassembleTimer sduCache st
          let st2 := { st1 with sduCacheMap := mapUpdate st1.sduCacheMap sensorID none }
          startFreshCache sensorID frame st2
        else st
      else
        if isFlagFirst frame.Flag then
          let st1 := cancelReassembleTimer sduCache st
          let st2 := { st1 with sduCacheMap := mapUpdate st1.sduCacheMap sensorID none }
          startFreshCache sensorID frame st2
        else
          if frame.PSEQ < sduCache.expectedSeq then st
          else if frame.PSEQ > sduCache.expectedSeq then
            let c1 :=
              { sduCache with
                  outOfOrder := ooInsert sduCache.outOfOrder frame.PSEQ frame.Data,
                  finalSeq := if isFlagLast frame.Flag then frame.PSEQ else sduCache.finalSeq }
            { st with sduCacheMap := mapUpdate st.sduCacheMap sensorID (some c1) }
          else
            let c1 :=
              { sduCache with
                  dataBuffer := appendFragmentData sduCache.dataBuffer frame.Data,
                  expectedSeq := (sduCache.expectedSeq + 1) % 256,
                  finalSeq := if isFlagLast frame.Flag then frame.PSEQ else sduCache.finalSeq }
            let c2 := drainLoop c1.outOfOrder.length c1
            let st1 := { st with sduCacheMap := mapUpdate st.sduCacheMap sensorID (some c2) }
            if c2.finalSeq ≠ 0 ∧ c2.finalSeq < c2.expectedSeq then
              finalizeAndOutput sensorID c2 st1
            else st1

/-- The body of the `time.AfterFunc` callback armed by
`frameparser.startReassembleTimer` (sharding.go lines 216-228), firing
for the cache whose identity is `cacheId`: the fired single-shot timer
is spent, and the cache stored for the sensor is removed only when it
is still the very cache the timer was armed for (`currentCache ==
cache` pointer identity), with no output and no error. -/
def fireReassembleTimeout (sensorID : SensorId) (cacheId : Nat) (st : ReasmState) : ReasmState :=
  let st1 : ReasmState := { st with timers := st.timers.filter (fun t => t ≠ cacheId) }
  match st1.sduCacheMap sensorID with
  | some currentCache =>
    if currentCache.cacheId = cacheId then
      { st1 with sduCacheMap := mapUpdate st1.sduCacheMap sensorID none }
    else st1
  | none => st1

/-! ## Frame encoder (internal/frameparser/usual_param_ctl.go) -/

/-- `config.Entry` (附录D table): the 2-byte on-wire parameter header
word (`ParameterType<<2 | LengthFlag`, stored little-endian), the fixed
data length, and the current data bytes. -/
structure Entry where
  head16 : Nat
  length : Nat
  data : Bytes
  deriving DecidableEq, Repr

/-- `config.table`: the outbound parameter table ("Temperature" with
type code 0x0005 / length flag 0 / 4 data bytes, "Humidity" with type
code 0x0009 / length flag 1 / 1 data byte). -/
def table : String → Option Entry
  | "Temperature" =>
    some { head16 := leUint16 (0b00000101 <<< 2 ||| 0b00) 0, length := 4,
           data := List.replicate 4 0 }
  | "Humidity" =>
    some { head16 := leUint16 (0b00001001 <<< 2 ||| 0b01) 0, length := 1,
           data := List.replicate 1 0 }
  | _ => none

/-- `config.GetEntryCopy`: a copy of the named entry, or an error for an
unknown parameter name. -/
def GetEntryCopy (name : String) : Except String Entry :=
  match table name with
  | some e => .ok e
  | none => .error ("unknown parameter: " ++ name)

/-- `frameparser.ctrlTypeGeneralParams` (usual_param_ctl.go line 16). -/
def ctrlTypeGeneralParams : Nat := 0x03

/-- `frameparser.maxParams` (usual_param_ctl.go line 19). -/
def maxParams : Nat := 16

/-- Modelled from the spec: the 3-bit control packet-type constant
`packetTypeControl` referenced by `BuildGeneralParamFrame` is declared
outside the files under study; §4.5 only fixes it to a packet type for
control frames, so a representative 3-bit value is used.  No theorem
below depends on the choice. -/
def packetTypeControl : Nat := 1

/-- The ParameterList construction loop of `BuildGeneralParamFrame`
(usual_param_ctl.go lines 47-72): for each name in order, copy the
table entry, require a value of exactly the entry's fixed length, and
append the little-endian 2-byte header word followed by the data. -/
def buildParamList (paramsMap : String → Option Bytes) :
    List String → Except String Bytes
  | [] => .ok []
  | name :: rest =>
    match GetEntryCopy name with
    | .error e => .error e
    | .ok entry =>
      match paramsMap name with
      | none => .error ("缺少参数 " ++ name ++ " 的值")
      | some val =>
        if val.length ≠ entry.length then
          .error ("参数 " ++ name ++ " 长度错误")
        else
          match buildParamList paramsMap rest with
          | .error e => .error e
          | .ok tail =>
            .ok ([entry.head16 % 256, entry.head16 / 256 % 256] ++ val ++ tail)

/-- Step 1 of `BuildGeneralParamFrame` (usual_param_ctl.go lines
32-73): flag 0 queries all parameters (`DataLen = 0xF`, no
ParameterList); any other flag requires a parameter count of 1..16 and
builds the ParameterList, the data length being `byte(m & 0x0F)`. -/
def buildStep1 (requestSetFlag : Nat) (paramsOrder : List String)
    (paramsMap : String → Option Bytes) : Except String (Nat × Bytes) :=
  if requestSetFlag = 0 then .ok (0x0F, [])
  else
    let m := paramsOrder.length
    if m = 0 ∨ m > maxParams then
      .error ("参数个数必须 1~16, got " ++ toString m)
    else
      match buildParamList paramsMap paramsOrder with
      | .error e => .error e
      | .ok pl => .ok (m % 16, pl)

/-- `frameparser.BuildGeneralParamFrame` (usual_param_ctl.go lines
31-98), parameterised by the shared `CRC16` function.  The ParameterList
is appended to the frame only when the flag is exactly 1.  The frame is
`sensorID ‖ head ‖ ctrlByte [‖ parameterList] ‖ CRC16` with the CRC
appended big-endian. -/
def BuildGeneralParamFrame (crc : Bytes → Nat) (sensorID : Bytes) (requestSetFlag : Nat)
    (paramsOrder : List String) (paramsMap : String → Option Bytes) :
    Except String Bytes :=
  match buildStep1 requestSetFlag paramsOrder paramsMap with
  | .error e => .error e
  | .ok (dataLen, parameterList) =>
    let head := ((dataLen &&& 0x0F) <<< 4) ||| (packetTypeControl &&& 0x07)
    let ctrlByte := ((ctrlTypeGeneralParams &&& 0x7F) <<< 1) ||| (requestSetFlag &&& 0x01)
    let body := sensorID ++ [head, ctrlByte] ++
      (if requestSetFlag = 1 then parameterList else [])
    let c := crc body
    .ok (body ++ [c / 256 % 256, c % 256])

/-! ## Concrete inputs used by the theorems -/

/-- The known water-level sensor identifier `238A08262319` as raw bytes. -/
def wSid : Bytes := [0x23, 0x8A, 0x08, 0x26, 0x23, 0x19]

/-- A validated monitoring frame from the known sensor carrying exactly
one parameter whose 14-bit type code is feature `0b000` / code
`0b00010100011` (water-level) with length flag 0, so the on-wire header
word is `(0b000_00010100011 << 2) | 0 = 0x028C`, followed by the 4-byte
little-endian pattern `00 00 C0 3F` of the float `1.5`, and a trailing
checksum matching `crcZero`. -/
def c1Frame : Bytes :=
  [0x23, 0x8A, 0x08, 0x26, 0x23, 0x19, 0x10,
   0x02, 0x8C, 0x00, 0x00, 0xC0, 0x3F, 0x00, 0x00]

/-- A validated monitoring frame from the known sensor whose single
parameter header `00 03` has length flag 3, sitting so that its three
explicit length bytes start at the first checksum byte: Go reads
`frame[9]`, `frame[10]` and then `frame[11]`, one past the end of the
11-byte frame. -/
def c2Frame : Bytes :=
  [0x23, 0x8A, 0x08, 0x26, 0x23, 0x19, 0x10, 0x00, 0x03, 0x00, 0x00]

/-- A two-parameter frame: the first parameter (header word `0x00A3`,
i.e. low 11 bits 163 with feature bits 0, length flag 3, declared
length 4) is found in the registry and decodes to `water-level = 1.5`;
the second parameter declares length 255, overrunning the region before
the checksum. -/
def c8Frame : Bytes :=
  [0x23, 0x8A, 0x08, 0x26, 0x23, 0x19, 0x20,
   0x00, 0xA3, 0x00, 0x00, 0x04, 0x00, 0x00, 0xC0, 0x3F,
   0x00, 0x01, 0xFF,
   0x00, 0x00]

/-- A two-parameter frame: the first parameter's header word `0x028C`
has no registry entry (it is skipped); the second (header word `0x00A3`,
declared length 4) decodes to `water-level = 1.5`. -/
def c9Frame : Bytes :=
  [0x23, 0x8A, 0x08, 0x26, 0x23, 0x19, 0x20,
   0x02, 0x8C, 0x00, 0x00, 0x00, 0x00,
   0x00, 0xA3, 0x00, 0x00, 0x04, 0x00, 0x00, 0xC0, 0x3F,
   0x00, 0x00]

/-- A first fragment (flag `00`, sequence 0) from the known sensor. -/
def wFirstFrag : GoFrame :=
  { SensorID := wSid, FragInd := 1, SSEQ := 5, PSEQ := 0, Flag := 0, Data := [1, 2] }

/-- Reassembler state holding one cache mid-assembly for `wSid`. -/
def wMidState : ReasmState := ProcessFrame wFirstFrag initState

/-- The cache created by `wFirstFrag` from the initial state. -/
def wCache : SDUCache :=
  { SSEQ := 5, expectedSeq := 1, finalSeq := 0, dataBuffer := [1, 2],
    outOfOrder := [], cacheId := 1 }

/-- A later first fragment (flag `00`) from the known sensor with a
different business sequence, used to instantiate C6/C7. -/
def wFrag2 : GoFrame :=
  { SensorID := wSid, FragInd := 1, SSEQ := 7, PSEQ := 0, Flag := 0, Data := [9] }

/-- The frame built by `BuildGeneralParamFrame` with `crcZero`, the
known sensor and request flag 0: query-all header `0xF1`, control byte
`0x06`, zero checksum. -/
def wQueryFrame : Bytes :=
  [0x23, 0x8A, 0x08, 0x26, 0x23, 0x19, 0xF1, 0x06, 0x00, 0x00]

/-! ## Theorems -/

/-- C1: the spec claims that a validated frame from the known sensor
with one parameter of 14-bit type code `0b000`/`0b00010100011`, length
flag 0 and value bytes `00 00 C0 3F` (the little-endian pattern of
`1.5`, bits `0x3FC00000`) makes the decoder split the 14-bit type code
and emit `(deviceName, "water-level", 1.5)`.  The code instead passes
the full 16-bit header word `0x028C` to `config.LookupParamInfo`, the
lookup misses, and the frame decodes with no tuple at all — while the
registry does hold the descriptor under the 14-bit code `0x028C >> 2`,
whose decode of the value bytes is exactly `1.5`. -/
theorem c1_lookup_misses_water_level :
    parseBusinessFrame crcZero c1Frame = .decoded [] .completed ∧
    LookupParamInfo (beUint16 0x02 0x8C) = none ∧
    lookupParse (beUint16 0x02 0x8C >>> 2) [0x00, 0x00, 0xC0, 0x3F] =
      some (.ok (.f32 0x3FC00000)) :=
  ⟨by decide, rfl, rfl⟩

/-- C2: the spec claims the parameter walk never reads past the end of
the frame and that explicit length bytes are consumed only when inside
the frame.  On `c2Frame` (a validated frame whose last parameter header
selects length flag 3 at index 7) the code reads `frame[9]`, `frame[10]`
and then `frame[11]` — one past the end of the 11-byte frame — which in
Go is an index-out-of-range panic, not a bounds error. -/
theorem c2_lenflag3_panics_past_frame :
    parseBusinessFrame crcZero c2Frame = .decoded [] .panicked ∧
    resolveLen c2Frame 9 3 = none ∧
    c2Frame.length = 11 :=
  ⟨by decide, by decide, by decide⟩

/-- C3: for every sensor, business sequence and fragment payloads, the
arrival order [first(seq 0), last(seq 3), seq 2, seq 1] emits nothing
until the seq-1 fragment arrives, then emits exactly one assembled
payload equal to the concatenation of the payloads in sequence order
0,1,2,3, and the sensor's cache is removed. -/
theorem c3_out_of_order_reassembly (sid : SensorId) (sq : Nat) (d0 d1 d2 d3 : Bytes) :
    (ProcessFrame ⟨sid, 1, sq, 0, 0, d0⟩ initState).frameCh = [] ∧
    (ProcessFrame ⟨sid, 1, sq, 3, 3, d3⟩
      (ProcessFrame ⟨sid, 1, sq, 0, 0, d0⟩ initState)).frameCh = [] ∧
    (ProcessFrame ⟨sid, 1, sq, 2, 2, d2⟩ (ProcessFrame ⟨sid, 1, sq, 3, 3, d3⟩
      (ProcessFrame ⟨sid, 1, sq, 0, 0, d0⟩ initState))).frameCh = [] ∧
    (ProcessFrame ⟨sid, 1, sq, 1, 2, d1⟩ (ProcessFrame ⟨sid, 1, sq, 2, 2, d2⟩
      (ProcessFrame ⟨sid, 1, sq, 3, 3, d3⟩
        (ProcessFrame ⟨sid, 1, sq, 0, 0, d0⟩ initState)))).frameCh =
      [⟨sid, 0, sq, 0, 0, d0 ++ d1 ++ d2 ++ d3⟩] ∧
    (ProcessFrame ⟨sid, 1, sq, 1, 2, d1⟩ (ProcessFrame ⟨sid, 1, sq, 2, 2, d2⟩
      (ProcessFrame ⟨sid, 1, sq, 3, 3, d3⟩
        (ProcessFrame ⟨sid, 1, sq, 0, 0, d0⟩ initState)))).sduCacheMap sid = none := by
  simp [ProcessFrame, initState, startFreshCache, finalizeAndOutput, cancelReassembleTimer,
    drainLoop, mapUpdate, ooInsert, ooDelete, isFlagFirst, isFlagLast, appendFragmentData,
    List.lookup]

/-- C6: when the reassembly timeout fires for a sensor, the cache is
removed only when the stored cache is the very one the timer was armed
for (identity, not key presence): the table entry is deleted exactly
when the identities agree, is untouched otherwise; nothing is emitted;
and a subsequent first fragment afterwards creates a fresh cache
normally. -/
theorem c6_timeout_identity_check (st : ReasmState) (sid : SensorId) (cid : Nat)
    (c : SDUCache) (hc : st.sduCacheMap sid = some c) :
    (fireReassembleTimeout sid cid st).frameCh = st.frameCh ∧
    (c.cacheId = cid → (fireReassembleTimeout sid cid st).sduCacheMap sid = none) ∧
    (c.cacheId ≠ cid → (fireReassembleTimeout sid cid st).sduCacheMap sid = some c) ∧
    (∀ f : GoFrame, f.SensorID = sid → f.FragInd = 1 → isFlagFirst f.Flag = true →
      c.cacheId = cid →
      (ProcessFrame f (fireReassembleTimeout sid cid st)).sduCacheMap sid =
        some { SSEQ := f.SSEQ, expectedSeq := (f.PSEQ + 1) % 256, finalSeq := 0,
               dataBuffer := f.Data, outOfOrder := [],
               cacheId := (fireReassembleTimeout sid cid st).nextCacheId }) := by
  refine ⟨?_, ?_, ?_, ?_⟩
  · unfold fireReassembleTimeout
    simp [hc]
    split <;> rfl
  · intro hcc
    simp [fireReassembleTimeout, hc, hcc, mapUpdate]
  · intro hcc
    simp [fireReassembleTimeout, hc, hcc]
  · intro f hsid hfrag hfirst hcc
    have hlast : isFlagLast f.Flag = false := by
      simp [isFlagFirst] at hfirst
      simp [isFlagLast, hfirst]
    simp [fireReassembleTimeout, hc, hcc, ProcessFrame, hfrag, hsid, hfirst,
      startFreshCache, hlast, mapUpdate, appendFragmentData]

/-- Witness for C6 at a concrete state: one cache (identity 1) is
mid-assembly for the known sensor; the timeout armed for identity 1
fires, removing the cache and emitting nothing, and a subsequent first
fragment builds a fresh cache. -/
theorem c6_timeout_identity_check_witness :
    (fireReassembleTimeout wSid 1 wMidState).frameCh = wMidState.frameCh ∧
    (fireReassembleTimeout wSid 1 wMidState).sduCacheMap wSid = none ∧
    (ProcessFrame wFrag2 (fireReassembleTimeout wSid 1 wMidState)).sduCacheMap wSid =
      some { SSEQ := wFrag2.SSEQ, expectedSeq := (wFrag2.PSEQ + 1) % 256, finalSeq := 0,
             dataBuffer := wFrag2.Data, outOfOrder := [],
             cacheId := (fireReassembleTimeout wSid 1 wMidState).nextCacheId } :=
  have h := c6_timeout_identity_check wMidState wSid 1 wCache (by decide)
  ⟨h.1, h.2.1 rfl, h.2.2.2 wFrag2 rfl rfl (by decide) rfl⟩

/-- C7: receiving another first fragment while a cache is mid-assembly
for the sensor — whether its business sequence matches the cache's or
not — cancels the old cache's timer, discards the buffered bytes and
all pending out-of-order fragments, and installs a fresh cache whose
buffer holds exactly the new fragment's payload with `expectedSeq`
equal to the fragment sequence plus one (`uint8` arithmetic); nothing
is emitted. -/
theorem c7_first_fragment_restart (st : ReasmState) (sid : SensorId) (old : SDUCache)
    (f : GoFrame) (hc : st.sduCacheMap sid = some old) (hsid : f.SensorID = sid)
    (hfrag : f.FragInd = 1) (hfirst : isFlagFirst f.Flag = true) :
    (ProcessFrame f st).sduCacheMap sid =
      some { SSEQ := f.SSEQ, expectedSeq := (f.PSEQ + 1) % 256, finalSeq := 0,
             dataBuffer := f.Data, outOfOrder := [], cacheId := st.nextCacheId } ∧
    (ProcessFrame f st).timers =
      st.nextCacheId :: st.timers.filter (fun t => t ≠ old.cacheId) ∧
    (ProcessFrame f st).frameCh = st.frameCh := by
  have hlast : isFlagLast f.Flag = false := by
    simp [isFlagFirst] at hfirst
    simp [isFlagLast, hfirst]
  rcases eq_or_ne f.SSEQ old.SSEQ with hs | hs <;>
    simp [ProcessFrame, hfrag, hsid, hc, hs, hfirst, hlast, startFreshCache,
      cancelReassembleTimer, mapUpdate, appendFragmentData]

/-- Witness for C7 at a concrete state: the mid-assembly cache for the
known sensor is replaced by a fresh cache built from the new first
fragment, the old timer (identity 1) is cancelled and a new one armed. -/
theorem c7_first_fragment_restart_witness :
    (ProcessFrame wFrag2 wMidState).sduCacheMap wSid =
      some { SSEQ := wFrag2.SSEQ, expectedSeq := (wFrag2.PSEQ + 1) % 256, finalSeq := 0,
             dataBuffer := wFrag2.Data, outOfOrder := [],
             cacheId := wMidState.nextCacheId } ∧
    (ProcessFrame wFrag2 wMidState).timers =
      wMidState.nextCacheId :: wMidState.timers.filter (fun t => t ≠ wCache.cacheId) ∧
    (ProcessFrame wFrag2 wMidState).frameCh = wMidState.frameCh :=
  c7_first_fragment_restart wMidState wSid wCache wFrag2 (by decide) rfl rfl (by decide)

/-- A successful `List.lookup` result is the value of some entry of the
list. -/
theorem lookup_some_mem {α β : Type} [BEq α] {l : List (α × β)} {k : α} {v : β}
    (h : l.lookup k = some v) : ∃ p ∈ l, p.2 = v := by
  induction l with
  | nil => simp [List.lookup] at h
  | cons a t ih =>
    obtain ⟨k1, v1⟩ := a
    rw [List.lookup] at h
    rcases hb : (k == k1) with _ | _
    · rw [hb] at h
      obtain ⟨p, hp, hv⟩ := ih h
      exact ⟨p, List.mem_cons_of_mem _ hp, hv⟩
    · rw [hb] at h
      exact ⟨(k1, v1), List.mem_cons_self _ _, (Option.some.inj h).symm ▸ rfl⟩

/-- `parseFloat32` rejects any length other than 4. -/
theorem parseFloat32_length_ne (data : Bytes) (h : data.length ≠ 4) :
    parseFloat32 data = .error "期望4字节" := by simp [parseFloat32, h]

/-- `parseUint8` rejects any length other than 1. -/
theorem parseUint8_length_ne (data : Bytes) (h : data.length ≠ 1) :
    parseUint8 data = .error "期望1字节" := by simp [parseUint8, h]

/-- `parseAndStoreTemperature` rejects any length other than 4. -/
theorem parseAndStoreTemperature_length_ne (data : Bytes) (h : data.length ≠ 4) :
    parseAndStoreTemperature data = .error "期望4字节" := by
  simp [parseAndStoreTemperature, parseFloat32, h]

/-- `parseAndStoreHumidity` rejects any length other than 2. -/
theorem parseAndStoreHumidity_length_ne (data : Bytes) (h : data.length ≠ 2) :
    parseAndStoreHumidity data = .error "期望2字节" := by simp [parseAndStoreHumidity, h]

/-- `parseAndStoreVoltage` rejects lengths below 4. -/
theorem parseAndStoreVoltage_short (data : Bytes) (h : data.length < 4) :
    parseAndStoreVoltage data = .error "数据长度不足，期望 4 字节" := by
  simp [parseAndStoreVoltage, h]

/-- `parseAndStoreBatteryLevel` rejects lengths below 2. -/
theorem parseAndStoreBatteryLevel_short (data : Bytes) (h : data.length < 2) :
    parseAndStoreBatteryLevel data = .error "数据长度不足，期望 2 字节" := by
  simp [parseAndStoreBatteryLevel, h]

/-- `parseAndStoreDeviceStatus` rejects the empty slice. -/
theorem parseAndStoreDeviceStatus_short (data : Bytes) (h : data.length < 1) :
    parseAndStoreDeviceStatus data = .error "数据长度不足，期望 1 字节" := by
  simp [parseAndStoreDeviceStatus, h]

/-- `parseAndStoreLevelHeight` rejects lengths below 4. -/
theorem parseAndStoreLevelHeight_short (data : Bytes) (h : data.length < 4) :
    parseAndStoreLevelHeight data = .error "数据长度不足，期望 4 字节" := by
  simp [parseAndStoreLevelHeight, h]

/-- C4 counterexample: the claim says every registered decode function
errors on any slice whose length differs from its descriptor's byte
length; but the registered voltage descriptor (feature 0, code 3, byte
length 4) decodes a 5-byte slice successfully, reading only its first
4 bytes. -/
theorem c4_counterexample_longer_slice_accepted :
    lookupParse 0b00000000011 [0, 0, 0, 0, 0] = some (.ok (.f32 0)) ∧
    (LookupParamInfo 0b00000000011).map ParamInfo.ByteLen = some 4 ∧
    (5 : Nat) ≠ 4 :=
  ⟨rfl, rfl, by decide⟩

/-- C4 amended: every registered decode function fails with a
length-mismatch error on slices shorter than its descriptor's byte
length; the strict decoders (`parseFloat32`, `parseUint8`,
temperature, humidity) additionally reject longer slices, while the
voltage, battery-charge, device-status and water-level decoders accept
any slice of at least their byte length and decode only its leading
bytes. -/
theorem c4_amended_length_validation :
    (∀ pt info, LookupParamInfo pt = some info →
      ∀ data : Bytes, data.length < info.ByteLen → ∃ e, info.Parse data = .error e) ∧
    (∀ data : Bytes, data.length ≠ 4 →
      (∃ e, parseFloat32 data = .error e) ∧ ∃ e, parseAndStoreTemperature data = .error e) ∧
    (∀ data : Bytes, data.length ≠ 2 → ∃ e, parseAndStoreHumidity data = .error e) ∧
    (∀ data : Bytes, data.length ≠ 1 → ∃ e, parseUint8 data = .error e) ∧
    (∀ data : Bytes, 4 ≤ data.length →
      (∃ v, parseAndStoreVoltage data = .ok v) ∧ ∃ v, parseAndStoreLevelHeight data = .ok v) ∧
    (∀ data : Bytes, 2 ≤ data.length → ∃ v, parseAndStoreBatteryLevel data = .ok v) ∧
    (∀ data : Bytes, 1 ≤ data.length → ∃ v, parseAndStoreDeviceStatus data = .ok v) := by
  refine ⟨?_, ?_, ?_, ?_, ?_, ?_, ?_⟩
  · intro pt info h data hlen
    unfold LookupParamInfo paramMap at h
    obtain ⟨p, hp, hv⟩ := lookup_some_mem h
    simp only [paramTable, List.mem_cons, List.not_mem_nil, or_false] at hp
    subst hv
    rcases hp with rfl | rfl | rfl | rfl | rfl | rfl | rfl | rfl | rfl | rfl | rfl | rfl <;>
      simp only at hlen ⊢ <;>
      first
        | exact ⟨_, parseFloat32_length_ne data (by omega)⟩
        | exact ⟨_, parseUint8_length_ne data (by omega)⟩
        | exact ⟨_, parseAndStoreTemperature_length_ne data (by omega)⟩
        | exact ⟨_, parseAndStoreHumidity_length_ne data (by omega)⟩
        | exact ⟨_, parseAndStoreVoltage_short data (by omega)⟩
        | exact ⟨_, parseAndStoreBatteryLevel_short data (by omega)⟩
        | exact ⟨_, parseAndStoreDeviceStatus_short data (by omega)⟩
  · intro data h
    exact ⟨⟨_, parseFloat32_length_ne data h⟩, ⟨_, parseAndStoreTemperature_length_ne data h⟩⟩
  · intro data h
    exact ⟨_, parseAndStoreHumidity_length_ne data h⟩
  · intro data h
    exact ⟨_, parseUint8_length_ne data h⟩
  · intro data h
    simp [parseAndStoreVoltage, parseAndStoreLevelHeight, Nat.not_lt.mpr h]
  · intro data h
    simp [parseAndStoreBatteryLevel, Nat.not_lt.mpr h]
  · intro data h
    simp [parseAndStoreDeviceStatus, Nat.not_lt.mpr h]

/-- Witness for C4 amended: the registered voltage descriptor rejects a
3-byte slice, and `parseFloat32` rejects a 5-byte slice. -/
theorem c4_amended_length_validation_witness :
    (∃ e, parseAndStoreVoltage [0, 0, 0] = Except.error e) ∧
    (∃ e, parseFloat32 [0, 0, 0, 0, 0] = Except.error e) ∧
    (∃ v, parseAndStoreVoltage [0, 0, 0, 0, 0] = Except.ok v) :=
  ⟨c4_amended_length_validation.1 0b00000000011
      ⟨"voltage", "v", 4, "uint32", parseAndStoreVoltage⟩ rfl [0, 0, 0] (by decide),
   (c4_amended_length_validation.2.1 [0, 0, 0, 0, 0] (by decide)).1,
   (c4_amended_length_validation.2.2.2.2.1 [0, 0, 0, 0, 0] (by decide)).1⟩

/-- A successful `BuildGeneralParamFrame` result is a body extending the
sensor identifier by at least two bytes, followed by the CRC of that
body stored big-endian in the trailing two bytes. -/
theorem build_ok_shape (crc : Bytes → Nat) (sensorID : Bytes) (rsf : Nat)
    (order : List String) (pmap : String → Option Bytes) (frame : Bytes)
    (hok : BuildGeneralParamFrame crc sensorID rsf order pmap = .ok frame) :
    ∃ body : Bytes, frame = body ++ [crc body / 256 % 256, crc body % 256] ∧
      ∃ tail : Bytes, body = sensorID ++ tail ∧ 2 ≤ tail.length := by
  unfold BuildGeneralParamFrame at hok
  rcases h1 : buildStep1 rsf order pmap with e | ⟨dataLen, pl⟩ <;> rw [h1] at hok
  · exact Except.noConfusion hok
  · replace hok := Except.ok.inj hok
    refine ⟨_, hok.symm, _, List.append_assoc .., ?_⟩
    by_cases hr : rsf = 1 <;> simp [hr]

/-- A body with its 16-bit checksum appended big-endian satisfies the
decoder's checksum comparison. -/
theorem validate_body_crc (crc : Bytes → Nat) (hcrc : ∀ l, crc l < 65536)
    (body : Bytes) :
    crc ((body ++ [crc body / 256 % 256, crc body % 256]).take
        ((body ++ [crc body / 256 % 256, crc body % 256]).length - 2)) =
      beUint16
        ((body ++ [crc body / 256 % 256, crc body % 256]).getD
          ((body ++ [crc body / 256 % 256, crc body % 256]).length - 2) 0)
        ((body ++ [crc body / 256 % 256, crc body % 256]).getD
          ((body ++ [crc body / 256 % 256, crc body % 256]).length - 2 + 1) 0) := by
  have hlen : (body ++ [crc body / 256 % 256, crc body % 256]).length = body.length + 2 := by
    simp
  have htake : (body ++ [crc body / 256 % 256, crc body % 256]).take
      ((body ++ [crc body / 256 % 256, crc body % 256]).length - 2) = body := by
    rw [hlen]
    have h1 : body.length + 2 - 2 = body.length := by omega
    rw [h1, List.take_left]
  rw [htake, hlen]
  have h1 : body.length + 2 - 2 = body.length := by omega
  rw [h1,
      List.getD_append_right _ _ _ _ (le_refl _),
      List.getD_append_right _ _ _ _ (by omega)]
  have h2 : body.length - body.length = 0 := by omega
  have h3 : body.length + 1 - body.length = 1 := by omega
  rw [h2, h3]
  simp [beUint16]
  have := hcrc body
  omega

/-- C5: every frame accepted by the encoder passes the decoder's
validation, for any shared deterministic 16-bit checksum function: the
frame is at least 9 bytes and the checksum of all bytes but the last
two equals the big-endian value of the trailing two bytes, so the
decoder rejects it with neither a length error nor a checksum error. -/
theorem c5_encoder_output_validates (crc : Bytes → Nat) (hcrc : ∀ l, crc l < 65536)
    (sensorID : Bytes) (hsid : sensorID.length = 6) (rsf : Nat) (order : List String)
    (pmap : String → Option Bytes) (frame : Bytes)
    (hok : BuildGeneralParamFrame crc sensorID rsf order pmap = .ok frame) :
    9 ≤ frame.length ∧
    crc (frame.take (frame.length - 2)) =
      beUint16 (frame.getD (frame.length - 2) 0) (frame.getD (frame.length - 2 + 1) 0) ∧
    parseBusinessFrame crc frame ≠ .lengthError ∧
    parseBusinessFrame crc frame ≠ .checksumError := by
  obtain ⟨body, rfl, tail, rfl, htail⟩ := build_ok_shape crc sensorID rsf order pmap frame hok
  have h9 : 9 ≤ ((sensorID ++ tail) ++
      [crc (sensorID ++ tail) / 256 % 256, crc (sensorID ++ tail) % 256]).length := by
    simp [hsid]
    omega
  have hv := validate_body_crc crc hcrc (sensorID ++ tail)
  refine ⟨h9, hv, ?_, ?_⟩ <;>
    (unfold parseBusinessFrame
     rw [if_neg (by omega), if_neg (by
       rw [show ((sensorID ++ tail) ++
            [crc (sensorID ++ tail) / 256 % 256, crc (sensorID ++ tail) % 256]).length - 1 =
          ((sensorID ++ tail) ++
            [crc (sensorID ++ tail) / 256 % 256, crc (sensorID ++ tail) % 256]).length - 2 + 1 by omega]
       exact not_not_intro hv)]
     dsimp only
     split
     · simp
     · split_ifs <;> simp)

/-- Witness for C5: the query-all frame built with `crcZero` for the
known sensor validates. -/
theorem c5_encoder_output_validates_witness :
    9 ≤ wQueryFrame.length ∧
    crcZero (wQueryFrame.take (wQueryFrame.length - 2)) =
      beUint16 (wQueryFrame.getD (wQueryFrame.length - 2) 0)
        (wQueryFrame.getD (wQueryFrame.length - 2 + 1) 0) ∧
    parseBusinessFrame crcZero wQueryFrame ≠ .lengthError ∧
    parseBusinessFrame crcZero wQueryFrame ≠ .checksumError :=
  c5_encoder_output_validates crcZero (fun _ => by norm_num [crcZero]) wSid rfl 0 []
    (fun _ => none) wQueryFrame rfl

/-- The parameter walk only ever appends to the accumulated tuple list:
whatever tuples were already emitted are preserved verbatim as a prefix
of the final output, and the final status does not depend on them. -/
theorem walkParams_acc (frame : Bytes) (dn : String) :
    ∀ (n idx : Nat) (acc : List (String × String × GoValue)),
      (walkParams frame dn n idx acc).1 = acc ++ (walkParams frame dn n idx []).1 ∧
      (walkParams frame dn n idx acc).2 = (walkParams frame dn n idx []).2 := by
  intro n
  induction n with
  | zero => intro idx acc; simp [walkParams]
  | succ n ih =>
    intro idx acc
    simp only [walkParams]
    split
    · simp
    · split
      · split
        · simp
        · split
          · simp
          · split
            · split
              · refine ⟨?_, ?_⟩
                · rw [(ih _ _).1]
                  conv_rhs => rw [(ih _ _).1]
                  simp
                · rw [(ih _ _).2]
                  conv_rhs => rw [(ih _ _).2]
              · exact ih _ _
            · exact ih _ _
      · simp

/-- C8: a bounds failure in the parameter loop stops decoding of that
frame at that parameter, and every tuple emitted by earlier iterations
of the same frame's loop remains — the walk only appends to its
accumulator, never retracts (first conjunct), and on the concrete
two-parameter frame `c8Frame` the first parameter's tuple survives the
second parameter's bounds failure (second conjunct). -/
theorem c8_bounds_failure_keeps_emitted :
    (∀ (frame : Bytes) (dn : String) (n idx : Nat)
        (acc : List (String × String × GoValue)),
      (walkParams frame dn n idx acc).1 = acc ++ (walkParams frame dn n idx []).1 ∧
      (walkParams frame dn n idx acc).2 = (walkParams frame dn n idx []).2) ∧
    parseBusinessFrame crcZero c8Frame =
      .decoded [("WaterLevelSensor01", "water-level", .f32 0x3FC00000)] .boundsData :=
  ⟨fun frame dn n idx acc => walkParams_acc frame dn n idx acc, by decide⟩

/-- C9: a parameter whose type code has no registry entry is skipped
without emitting a tuple and without aborting the frame — one loop
iteration over an unknown, in-bounds parameter equals the walk over the
remaining parameters with the same accumulator, starting just past the
unknown parameter's value bytes. -/
theorem c9_unknown_type_skipped (frame : Bytes) (dn : String) (n idx b0 b1 dl idx2 : Nat)
    (acc : List (String × String × GoValue))
    (hhdr : ¬ idx + 2 > frame.length - 2)
    (h0 : frame[idx]? = some b0) (h1 : frame[idx + 1]? = some b1)
    (hres : resolveLen frame (idx + 2) (beUint16 b0 b1 % 4) = some (dl, idx2))
    (hdata : ¬ idx2 + dl > frame.length - 2)
    (hlook : LookupParamInfo (beUint16 b0 b1) = none) :
    walkParams frame dn (n + 1) idx acc = walkParams frame dn n (idx2 + dl) acc := by
  simp only [walkParams]
  rw [if_neg hhdr, h0, h1]
  simp only [hres, hlook]
  rw [if_neg hdata]

/-- Witness for C9 on the concrete frame `c9Frame`: its first parameter
(header word `0x028C`) is unknown and skipped, and the frame still
emits the second parameter's `water-level` tuple and completes. -/
theorem c9_unknown_type_skipped_witness :
    LookupParamInfo (beUint16 0x02 0x8C) = none ∧
    walkParams c9Frame "WaterLevelSensor01" 2 7 [] =
      walkParams c9Frame "WaterLevelSensor01" 1 13 [] ∧
    parseBusinessFrame crcZero c9Frame =
      .decoded [("WaterLevelSensor01", "water-level", .f32 0x3FC00000)] .completed :=
  ⟨rfl,
   c9_unknown_type_skipped c9Frame "WaterLevelSensor01" 1 7 0x02 0x8C 4 9 []
     (by decide) (by decide) (by decide) (by decide) (by decide) rfl,
   by decide⟩

/-- With request flag 0 the encoder ignores `paramsOrder`/`paramsMap`
and always returns the 10-byte query-all frame `sid ‖ 0xF1 ‖ 0x06 ‖
CRC16` (with `packetTypeControl = 1` in the model). -/
theorem build_query_all_shape (crc : Bytes → Nat) (sid : Bytes) (order : List String)
    (pmap : String → Option Bytes) :
    BuildGeneralParamFrame crc sid 0 order pmap =
      .ok ((sid ++ [241, 6]) ++
        [crc (sid ++ [241, 6]) / 256 % 256, crc (sid ++ [241, 6]) % 256]) := by
  have h6 : (3 &&& 127) <<< 1 = 6 := by decide
  unfold BuildGeneralParamFrame buildStep1
  simp [packetTypeControl, ctrlTypeGeneralParams, h6]

/-- C10 counterexample: the claim restricts the
reject-on-count-0-or-over-maximum rule to `requestSetFlag = 1`, but the
code applies it on the `else` branch, i.e. for every nonzero flag:
calling with flag 2 and an empty parameter order returns the count
error even though the flag is not 1 (and not 0). -/
theorem c10_counterexample_flag2_rejected :
    BuildGeneralParamFrame crcZero wSid 2 [] (fun _ => none) =
      .error "参数个数必须 1~16, got 0" ∧ (2 : Nat) ≠ 1 ∧ (2 : Nat) ≠ 0 :=
  ⟨rfl, by decide, by decide⟩

/-- C10 amended: with `requestSetFlag = 0` the encoder never errors,
ignoring `paramsOrder` and `paramsMap`, and returns exactly 10 bytes —
the 6-byte sensor identifier, a header byte with upper nibble `0xF`, a
control byte with low bit 0, and the big-endian 2-byte checksum of the
first 8 bytes; the reject-on-count rule applies whenever
`requestSetFlag` is nonzero (not only when it is 1). -/
theorem c10_general_param_frame_amended (crc : Bytes → Nat) (sid : Bytes)
    (hsid : sid.length = 6) (order : List String) (pmap : String → Option Bytes) :
    (∃ frame, BuildGeneralParamFrame crc sid 0 order pmap = .ok frame ∧
      frame.length = 10 ∧
      frame.take 6 = sid ∧
      frame.getD 6 0 / 16 = 0xF ∧
      frame.getD 7 0 % 2 = 0 ∧
      frame.drop 8 = [crc (frame.take 8) / 256 % 256, crc (frame.take 8) % 256]) ∧
    (∀ rsf, rsf ≠ 0 →
      BuildGeneralParamFrame crc sid rsf [] pmap =
        .error ("参数个数必须 1~16, got " ++ toString (0 : Nat))) := by
  constructor
  · refine ⟨_, build_query_all_shape crc sid order pmap, ?_, ?_, ?_, ?_, ?_⟩
    · simp [hsid]
    · rw [List.append_assoc, show (6 : Nat) = sid.length from hsid.symm, List.take_left]
    · rw [List.append_assoc, List.getD_append_right _ _ _ _ (by omega)]
      simp [hsid]
    · rw [List.append_assoc, List.getD_append_right _ _ _ _ (by omega)]
      simp [hsid]
    · have h8 : (8 : Nat) = (sid ++ [241, 6]).length := by simp [hsid]
      rw [h8, List.drop_left, List.take_left]
  · intro rsf hr
    unfold BuildGeneralParamFrame buildStep1
    rw [if_neg hr]
    simp

/-- Witness for C10 amended at the known sensor: flag 0 yields the
10-byte query-all frame, flag 2 with an empty order is rejected by the
count rule. -/
theorem c10_general_param_frame_amended_witness :
    BuildGeneralParamFrame crcZero wSid 0 [] (fun _ => none) = .ok wQueryFrame ∧
    wQueryFrame.length = 10 ∧
    BuildGeneralParamFrame crcZero wSid 2 [] (fun _ => none) =
      .error ("参数个数必须 1~16, got " ++ toString (0 : Nat)) :=
  have h := c10_general_param_frame_amended crcZero wSid rfl [] (fun _ => none)
  ⟨rfl, rfl, h.2 2 (by decide)⟩
